import Mathlib

/-!
# Verification of the OSMAR point-of-sale analytics engine

A shallow embedding of the repository's analysis and date-range logic:

* a model of the ECMAScript `Date` arithmetic the pages rely on
  (`new Date(y, m, d, ...)` with field normalisation, `getFullYear`,
  `getMonth`, `getDate`, `getDay`, `setDate`, `setHours`), with instants
  as integer milliseconds since the Unix epoch and local time taken as
  UTC (the code never manipulates time zones);
* the Reports page: `filterSalesByTime`, `arredondamentoPersonalizado`,
  `calcularConsumoMedio`, the stable sort by suggested quantity, and the
  category / product revenue aggregates;
* the Dashboard and Sales pages: both `handlePeriodChange` period
  resolvers and both date-range filters.

Decimal arithmetic is modelled over `ℚ`; a JavaScript division whose
divisor is zero yields a non-finite value (`NaN` for `0/0`), modelled as
`none`.
-/

/-! ## Civil-calendar arithmetic (proleptic Gregorian, as used by `Date`) -/

/-- `Day(t)` of the ECMAScript specification: the day number containing
instant `t` (milliseconds since the epoch), by floored division. -/
def dayOf (t : ℤ) : ℤ := t / 86400000

/-- `TimeWithinDay(t)`: the millisecond offset of `t` inside its day. -/
def timeOfDay (t : ℤ) : ℤ := t % 86400000

/-- Gregorian civil date `(year, month 1-12, day 1-31)` of a day number
(day 0 = 1970-01-01).  The day number is decomposed era by era
(400 years = 146097 days), then century, then 4-year block, then year,
each by one Euclidean division; `(4x+3)/146097` and `(4x+3)/1461` clamp
the one-day overshoot at a leap century / leap year boundary. -/
def civilParts (era doe : ℤ) : ℤ × ℤ × ℤ :=
  let c := (4 * doe + 3) / 146097
  let dcent := doe - 36524 * c
  let j := dcent / 1461
  let dblock := dcent - 1461 * j
  let k := (4 * dblock + 3) / 1461
  let doy := dblock - 365 * k
  let yoe := 100 * c + 4 * j + k
  let mp := (5 * doy + 2) / 153
  let d := doy - (153 * mp + 2) / 5 + 1
  let m := if mp < 10 then mp + 3 else mp - 9
  (if m ≤ 2 then era * 400 + yoe + 1 else era * 400 + yoe, m, d)

/-- Civil date of a day number. -/
def civilFromDays (z : ℤ) : ℤ × ℤ × ℤ :=
  civilParts ((z + 719468) / 146097) ((z + 719468) % 146097)

/-- Day number of a civil date `(y, m ∈ 1..12, d)`. -/
def daysFromCivil (y m d : ℤ) : ℤ :=
  let yy := if m ≤ 2 then y - 1 else y
  let era := yy / 400
  let yoe := yy - era * 400
  let doy := (153 * (if 2 < m then m - 3 else m + 9) + 2) / 5 + d - 1
  let doe := yoe * 365 + yoe / 4 - yoe / 100 + doy
  era * 146097 + doe - 719468

theorem civilFromDays_zero : civilFromDays 0 = (1970, 1, 1) := by decide

theorem civilFromDays_leap : civilFromDays 19782 = (2024, 2, 29) := by decide

theorem daysFromCivil_epoch : daysFromCivil 1970 1 1 = 0 := by decide

set_option maxHeartbeats 1000000 in
/-- Core round-trip step: recombining the components produced by
`civilParts` recovers the day number. -/
theorem daysFromCivil_parts (era doe c dcent j dblock k doy yoe mp dd m : ℤ)
    (h0 : 0 ≤ doe) (h1 : doe < 146097)
    (hc : c = (4 * doe + 3) / 146097)
    (hdc : dcent = doe - 36524 * c)
    (hj : j = dcent / 1461)
    (hdb : dblock = dcent - 1461 * j)
    (hk : k = (4 * dblock + 3) / 1461)
    (hdoy : doy = dblock - 365 * k)
    (hyoe : yoe = 100 * c + 4 * j + k)
    (hmp : mp = (5 * doy + 2) / 153)
    (hdd : dd = doy - (153 * mp + 2) / 5 + 1)
    (hm : m = (if mp < 10 then mp + 3 else mp - 9)) :
    daysFromCivil (if m ≤ 2 then era * 400 + yoe + 1 else era * 400 + yoe) m dd
      = era * 146097 + doe - 719468 := by
  have hc1 : 0 ≤ c ∧ c ≤ 3 := by omega
  have hdc1 : 0 ≤ dcent ∧ dcent ≤ 36524 := by omega
  have hj1 : 0 ≤ j ∧ j ≤ 24 := by omega
  have hdb1 : 0 ≤ dblock ∧ dblock ≤ 1460 := by omega
  have hk1 : 0 ≤ k ∧ k ≤ 3 := by omega
  have hdoy1 : 0 ≤ doy ∧ doy ≤ 365 := by omega
  have hyoe1 : 0 ≤ yoe ∧ yoe ≤ 399 := by omega
  have hmp1 : 0 ≤ mp ∧ mp ≤ 11 := by omega
  have hera : (era * 400 + yoe) / 400 = era := by omega
  have hsub : era * 400 + yoe - era * 400 = yoe := by ring
  have hq4 : yoe / 4 = 25 * c + j := by omega
  have hq100 : yoe / 100 = c := by omega
  simp only [daysFromCivil]
  by_cases h10 : mp < 10
  · rw [if_pos h10] at hm
    have hm2 : ¬ m ≤ 2 := by omega
    have hm3 : 2 < m := by omega
    have hmdiv : (153 * (m - 3) + 2) / 5 = (153 * mp + 2) / 5 := by omega
    rw [if_neg hm2, if_neg hm2, if_pos hm3, hera, hsub, hq4, hq100, hmdiv]
    omega
  · rw [if_neg h10] at hm
    have hm2 : m ≤ 2 := by omega
    have hm3 : ¬ 2 < m := by omega
    have hmdiv : (153 * (m + 9) + 2) / 5 = (153 * mp + 2) / 5 := by omega
    rw [if_pos hm2, if_pos hm2, if_neg hm3]
    have hyy : era * 400 + yoe + 1 - 1 = era * 400 + yoe := by ring
    rw [hyy, hera, hsub, hq4, hq100, hmdiv]
    omega

/-- The civil decomposition of a day number is a section of
`daysFromCivil`: converting back gives the same day number. -/
theorem daysFromCivil_civilFromDays (z : ℤ) :
    daysFromCivil (civilFromDays z).1 (civilFromDays z).2.1 (civilFromDays z).2.2 = z := by
  have h0 : 0 ≤ (z + 719468) % 146097 := Int.emod_nonneg _ (by norm_num)
  have h1 : (z + 719468) % 146097 < 146097 := Int.emod_lt_of_pos _ (by norm_num)
  have hz : 146097 * ((z + 719468) / 146097) + (z + 719468) % 146097 = z + 719468 :=
    Int.ediv_add_emod _ _
  simp only [civilFromDays, civilParts]
  rw [daysFromCivil_parts ((z + 719468) / 146097) ((z + 719468) % 146097)
    _ _ _ _ _ _ _ _ _ _ h0 h1 rfl rfl rfl rfl rfl rfl rfl rfl rfl rfl]
  omega

theorem daysFromCivil_day_shift (y m d : ℤ) :
    daysFromCivil y m d = daysFromCivil y m 1 + (d - 1) := by
  simp only [daysFromCivil]
  omega

/-! ## ECMAScript `Date` operations used by the pages -/

/-- `getFullYear()` of an instant. -/
def getFullYear (t : ℤ) : ℤ := (civilFromDays (dayOf t)).1

/-- `getMonth()` of an instant (0-based, 0 = January). -/
def getMonth (t : ℤ) : ℤ := (civilFromDays (dayOf t)).2.1 - 1

/-- `getDate()` of an instant (day of month, 1-based). -/
def getDate (t : ℤ) : ℤ := (civilFromDays (dayOf t)).2.2

/-- `getDay()` of an instant (0 = Sunday; day 0 = 1970-01-01 was a
Thursday). -/
def getDay (t : ℤ) : ℤ := (dayOf t + 4) % 7

/-- `MakeTime(h, mi, s, ms)`: milliseconds within (or overflowing) a day. -/
def mkTime (h mi s ms : ℤ) : ℤ := h * 3600000 + mi * 60000 + s * 1000 + ms

/-- `MakeDay(y, mon, d)` of `new Date(y, mon, d, ...)`: `mon` is 0-based
and overflows into the year, `d` is 1-based and overflows into the month;
a year argument in `0..99` is read as `1900..1999`. -/
def mkDay (y mon d : ℤ) : ℤ :=
  let yr := if 0 ≤ y ∧ y ≤ 99 then y + 1900 else y
  daysFromCivil (yr + mon / 12) (mon % 12 + 1) 1 + (d - 1)

/-- `new Date(y, mon, d, h, mi, s, ms)` as an instant. -/
def mkDate (y mon d h mi s ms : ℤ) : ℤ := mkDay y mon d * 86400000 + mkTime h mi s ms

/-- `t.setHours(h, mi, s, ms)`: keep the day, replace the time of day
(overflow rolls into neighbouring days). -/
def setHours (t h mi s ms : ℤ) : ℤ := dayOf t * 86400000 + mkTime h mi s ms

/-- `t.setDate(d)`: keep year, month and time of day, replace the day of
month (0 or negative selects days of the previous months). -/
def setDate (t d : ℤ) : ℤ :=
  (daysFromCivil (civilFromDays (dayOf t)).1 (civilFromDays (dayOf t)).2.1 1 + (d - 1))
      * 86400000 + timeOfDay t

/-- Shifting the day-of-month field by `k` shifts the instant by exactly
`k` civil days, whatever the month boundaries. -/
theorem setDate_getDate_add (t k : ℤ) :
    setDate t (getDate t + k) = t + k * 86400000 := by
  have h := daysFromCivil_civilFromDays (dayOf t)
  have h2 := daysFromCivil_day_shift (civilFromDays (dayOf t)).1
    (civilFromDays (dayOf t)).2.1 (civilFromDays (dayOf t)).2.2
  simp only [setDate, getDate, timeOfDay, dayOf] at *
  omega

/-! ## Data model -/

/-- A catalog product (`Product` of `types.ts`). -/
structure Product where
  id : String
  name : String
  category : String
  selling_price : ℚ
  cost_price : ℚ
  quantity : ℕ
  min_stock_level : ℕ
deriving DecidableEq, Repr

/-- A sale line item (`SaleItem`). -/
structure SaleItem where
  product_id : String
  quantity : ℕ
  price_at_sale : ℚ
deriving DecidableEq, Repr

/-- A sale (`Sale`); `created_at` is an instant in epoch milliseconds. -/
structure Sale where
  id : String
  created_at : ℤ
  total : ℚ
  payment_method : String
  sale_items : List SaleItem
deriving DecidableEq, Repr

/-- Consumption trend (`'subindo' | 'estavel' | 'descendo'`). -/
inductive Tendencia where
  | subindo
  | estavel
  | descendo
deriving DecidableEq, Repr

/-- One row of the consumption-analysis table (`ConsumoAnalise`). -/
structure ConsumoAnalise where
  produto : String
  consumo_diario : ℤ
  consumo_semanal : ℤ
  consumo_mensal : ℤ
  quantidade_sugerida : ℤ
  tendencia : Tendencia
deriving DecidableEq, Repr

/-! ## Reports page: display filter, rounding, consumption analysis -/

namespace Reports

/-- `filterSalesByTime` of the Reports page: keeps the sales matching the
selected display period, relative to `now` (`new Date()`). -/
def filterSalesByTime (timeFilter : String) (now : ℤ) (sales : List Sale) : List Sale :=
  sales.filter fun sale =>
    if timeFilter = "daily" then
      decide (civilFromDays (dayOf sale.created_at) = civilFromDays (dayOf now))
    else if timeFilter = "weekly" then
      decide (sale.created_at ≥ now - 7 * 24 * 60 * 60 * 1000)
    else if timeFilter = "monthly" then
      decide (getMonth sale.created_at = getMonth now ∧
        getFullYear sale.created_at = getFullYear now)
    else true

/-- `arredondamentoPersonalizado`: round half up (`parteDecimal ≥ 0.5`
adds one to `parteInteira = Math.floor(valor)`), but any value below 1 is
forced to 1. -/
def arredondamentoPersonalizado (valor : ℚ) : ℤ :=
  if valor < 1 then 1
  else if valor - ⌊valor⌋ ≥ 0.5 then ⌊valor⌋ + 1 else ⌊valor⌋

/-- The sale items of one product, paired with the enclosing sale's
`created_at` (the `flatMap` + `filter` of `calcularConsumoMedio`). -/
def vendasProdutoDe (produto : Product) (vendas : List Sale) : List (SaleItem × ℤ) :=
  ((vendas.map fun venda => venda.sale_items.map fun item => (item, venda.created_at)).flatten).filter
    fun q => decide (q.1.product_id = produto.id)

/-- `umMesAtras`: same day-of-month one calendar month before `hoje`,
at midnight (`new Date(getFullYear, getMonth - 1, getDate)`). -/
def umMesAtrasDe (hoje : ℤ) : ℤ :=
  mkDate (getFullYear hoje) (getMonth hoje - 1) (getDate hoje) 0 0 0 0

/-- `umaSemanaAtras`: exactly 7 × 24h before `hoje`. -/
def umaSemanaAtrasDe (hoje : ℤ) : ℤ := hoje - 7 * 24 * 60 * 60 * 1000

/-- Sum of the `quantity` fields (the `reduce` of `calcularConsumoMedio`). -/
def somaQuantidades (itens : List (SaleItem × ℤ)) : ℕ :=
  itens.foldl (fun s q => s + q.1.quantity) 0

/-- `vendasMes`: the product's items dated in the last calendar month. -/
def vendasMesDe (produto : Product) (vendas : List Sale) (hoje : ℤ) : List (SaleItem × ℤ) :=
  (vendasProdutoDe produto vendas).filter fun q => decide (q.2 ≥ umMesAtrasDe hoje)

/-- `vendasSemana`: the product's items dated in the last 7 days. -/
def vendasSemanaDe (produto : Product) (vendas : List Sale) (hoje : ℤ) : List (SaleItem × ℤ) :=
  (vendasProdutoDe produto vendas).filter fun q => decide (q.2 ≥ umaSemanaAtrasDe hoje)

/-- `consumoRecente`: units sold in the last 7 days. -/
def consumoRecenteDe (produto : Product) (vendas : List Sale) (hoje : ℤ) : ℕ :=
  somaQuantidades (vendasSemanaDe produto vendas hoje)

/-- `consumoAntigo`: units sold in the last month but before the last 7
days. -/
def consumoAntigoDe (produto : Product) (vendas : List Sale) (hoje : ℤ) : ℕ :=
  somaQuantidades
    ((vendasMesDe produto vendas hoje).filter fun q => decide (q.2 < umaSemanaAtrasDe hoje))

/-- `calcularConsumoMedio`: per-product consumption rates, trend and
suggested restock quantity, from the sales passed in and `hoje`
(`new Date()`). -/
def calcularConsumoMedio (produto : Product) (vendas : List Sale) (hoje : ℤ) : ConsumoAnalise :=
  let consumoDiario : ℚ := (somaQuantidades (vendasMesDe produto vendas hoje) : ℚ) / 30
  let consumoSemanal : ℚ := (somaQuantidades (vendasSemanaDe produto vendas hoje) : ℚ) / 7
  let consumoMensal : ℕ := somaQuantidades (vendasMesDe produto vendas hoje)
  let consumoRecente : ℕ := consumoRecenteDe produto vendas hoje
  let consumoAntigo : ℕ := consumoAntigoDe produto vendas hoje
  let tendencia : Tendencia :=
    if (consumoRecente : ℚ) > (consumoAntigo : ℚ) * 1.1 then Tendencia.subindo
    else if (consumoRecente : ℚ) < (consumoAntigo : ℚ) * 0.9 then Tendencia.descendo
    else Tendencia.estavel
  let quantidadeSugerida : ℤ := ⌈(consumoMensal : ℚ) * 1.2⌉
  { produto := produto.name
    consumo_diario := arredondamentoPersonalizado consumoDiario
    consumo_semanal := arredondamentoPersonalizado consumoSemanal
    consumo_mensal := arredondamentoPersonalizado (consumoMensal : ℚ)
    quantidade_sugerida := arredondamentoPersonalizado (quantidadeSugerida : ℚ)
    tendencia := tendencia }

end Reports

/-! ## Stable descending sort (`Array.prototype.sort` with comparator
`(a, b) => key(b) - key(a)` is a stable sort, descending by key) -/

/-- Insert `x` (an element that precedes all of `l` in the original
order) into the already-sorted `l`, before the first element whose key
does not exceed `x`'s. -/
def insereDesc {α β : Type} [LinearOrder β] (chave : α → β) (x : α) : List α → List α
  | [] => [x]
  | y :: l => if chave y ≤ chave x then x :: y :: l else y :: insereDesc chave x l

/-- Stable insertion sort, descending by `chave`. -/
def ordenaDesc {α β : Type} [LinearOrder β] (chave : α → β) : List α → List α
  | [] => []
  | x :: l => insereDesc chave x (ordenaDesc chave l)

theorem mem_insereDesc {α β : Type} [LinearOrder β] (chave : α → β) (x z : α)
    (l : List α) (h : z ∈ insereDesc chave x l) : z = x ∨ z ∈ l := by
  induction l with
  | nil => simpa [insereDesc] using h
  | cons y l ih =>
    simp only [insereDesc] at h
    by_cases hc : chave y ≤ chave x
    · rw [if_pos hc] at h
      simpa using h
    · rw [if_neg hc] at h
      rcases List.mem_cons.1 h with h1 | h1
      · exact Or.inr (by simp [h1])
      · rcases ih h1 with h2 | h2
        · exact Or.inl h2
        · exact Or.inr (by simp [h2])

theorem pairwise_insereDesc {α β : Type} [LinearOrder β] (chave : α → β) (x : α)
    (l : List α) (h : l.Pairwise fun a b => chave b ≤ chave a) :
    (insereDesc chave x l).Pairwise fun a b => chave b ≤ chave a := by
  induction l with
  | nil => simp [insereDesc]
  | cons y l ih =>
    simp only [insereDesc]
    by_cases hc : chave y ≤ chave x
    · rw [if_pos hc]
      refine List.Pairwise.cons ?_ h
      intro z hz
      rcases List.mem_cons.1 hz with h1 | h1
      · exact h1 ▸ hc
      · exact le_trans ((List.pairwise_cons.1 h).1 z h1) hc
    · rw [if_neg hc]
      refine List.Pairwise.cons ?_ (ih (List.pairwise_cons.1 h).2)
      intro z hz
      rcases mem_insereDesc chave x z l hz with h1 | h1
      · exact h1 ▸ le_of_lt (lt_of_not_le hc)
      · exact (List.pairwise_cons.1 h).1 z h1

/-- The output of `ordenaDesc` is non-increasing in the key. -/
theorem pairwise_ordenaDesc {α β : Type} [LinearOrder β] (chave : α → β)
    (l : List α) : (ordenaDesc chave l).Pairwise fun a b => chave b ≤ chave a := by
  induction l with
  | nil => simp [ordenaDesc]
  | cons x l ih => exact pairwise_insereDesc chave x _ ih

theorem filter_insereDesc {α β : Type} [LinearOrder β] (chave : α → β) (x : α)
    (l : List α) (k : β) :
    (insereDesc chave x l).filter (fun a => decide (chave a = k)) =
      if chave x = k then x :: l.filter (fun a => decide (chave a = k))
      else l.filter (fun a => decide (chave a = k)) := by
  induction l with
  | nil => by_cases hx : chave x = k <;> simp [insereDesc, hx]
  | cons y l ih =>
    simp only [insereDesc]
    by_cases hc : chave y ≤ chave x
    · rw [if_pos hc]
      by_cases hx : chave x = k <;> by_cases hy : chave y = k <;>
        simp [List.filter_cons, hx, hy]
    · rw [if_neg hc]
      by_cases hx : chave x = k
      · have hy : ¬ chave y = k := by
          intro hy
          exact hc (le_of_eq (hy.trans hx.symm))
        rw [if_pos hx]
        simp [List.filter_cons, hy, ih, hx]
      · by_cases hy : chave y = k <;> simp [List.filter_cons, hx, hy, ih]

/-- Stability of `ordenaDesc`: the elements having any fixed key keep
their original relative order. -/
theorem filter_ordenaDesc {α β : Type} [LinearOrder β] (chave : α → β)
    (l : List α) (k : β) :
    (ordenaDesc chave l).filter (fun a => decide (chave a = k)) =
      l.filter (fun a => decide (chave a = k)) := by
  induction l with
  | nil => rfl
  | cons x l ih =>
    simp only [ordenaDesc]
    rw [filter_insereDesc]
    by_cases hx : chave x = k <;> simp [List.filter_cons, hx, ih]

theorem map_insereDesc_sum {α β : Type} [LinearOrder β] (chave : α → β)
    (f : α → ℚ) (x : α) (l : List α) :
    ((insereDesc chave x l).map f).sum = f x + (l.map f).sum := by
  induction l with
  | nil => simp [insereDesc]
  | cons y l ih =>
    simp only [insereDesc]
    by_cases hc : chave y ≤ chave x
    · rw [if_pos hc]
      simp
    · rw [if_neg hc]
      simp [ih]
      ring

/-- Sorting does not change the sum of any projection. -/
theorem map_ordenaDesc_sum {α β : Type} [LinearOrder β] (chave : α → β)
    (f : α → ℚ) (l : List α) :
    ((ordenaDesc chave l).map f).sum = (l.map f).sum := by
  induction l with
  | nil => rfl
  | cons x l ih =>
    simp only [ordenaDesc]
    rw [map_insereDesc_sum]
    simp [ih]

namespace Reports

/-- The consumption-analysis list of the Reports page `useEffect`: one
record per catalog product, computed over the display-filtered sales,
then sorted descending by suggested quantity (`analise.sort`). -/
def analiseDe (timeFilter : String) (now : ℤ) (products : List Product)
    (sales : List Sale) : List ConsumoAnalise :=
  ordenaDesc (fun a => a.quantidade_sugerida)
    (products.map fun produto =>
      calcularConsumoMedio produto (filterSalesByTime timeFilter now sales) now)

/-! ### Revenue aggregates (category distribution, product contribution) -/

/-- JavaScript division as used in the percentage computations: a zero
divisor yields a non-finite value (`NaN` here, since every dividend that
meets a zero divisor is itself 0), modelled as `none`. -/
def jsDiv (a b : ℚ) : Option ℚ := if b = 0 then none else some (a / b)

/-- `acc[key] = (acc[key] || 0) + v` over an insertion-ordered object:
accumulate in place if the key exists, else append it. -/
def upsert (acc : List (String × ℚ)) (key : String) (v : ℚ) : List (String × ℚ) :=
  match acc with
  | [] => [(key, v)]
  | (k, w) :: rest => if k = key then (k, w + v) :: rest else (k, w) :: upsert rest key v

/-- Revenue per product category over the filtered sales: items whose
product lookup fails are skipped. -/
def categoryData (products : List Product) (filteredSales : List Sale) :
    List (String × ℚ) :=
  filteredSales.foldl
    (fun acc sale =>
      sale.sale_items.foldl
        (fun acc item =>
          match products.find? (fun p => p.id == item.product_id) with
          | some product =>
              upsert acc product.category (item.price_at_sale * (item.quantity : ℚ))
          | none => acc)
        acc)
    []

/-- `totalCategorySales`: grand total of the category revenues. -/
def totalCategorySales (products : List Product) (filteredSales : List Sale) : ℚ :=
  ((categoryData products filteredSales).map fun e => e.2).sum

/-- `setCategoryDistribution`'s payload: each category with its revenue
share of the grand total, as a percentage. -/
def categoryDistribution (products : List Product) (filteredSales : List Sale) :
    List (String × Option ℚ) :=
  (categoryData products filteredSales).map fun e =>
    (e.1, (jsDiv e.2 (totalCategorySales products filteredSales)).map fun q => q * 100)

/-- Revenue per product name over the filtered sales. -/
def productRevenue (products : List Product) (filteredSales : List Sale) :
    List (String × ℚ) :=
  filteredSales.foldl
    (fun acc sale =>
      sale.sale_items.foldl
        (fun acc item =>
          match products.find? (fun p => p.id == item.product_id) with
          | some product =>
              upsert acc product.name (item.price_at_sale * (item.quantity : ℚ))
          | none => acc)
        acc)
    []

/-- `totalProductRevenue`: grand total of the per-product revenues. -/
def totalProductRevenue (products : List Product) (filteredSales : List Sale) : ℚ :=
  ((productRevenue products filteredSales).map fun e => e.2).sum

/-- `setRevenueContribution`'s payload: the top 5 products by revenue,
plus one aggregate entry for the rest; each entry carries the floored
revenue and its percentage of the grand total. -/
def revenueContribution (products : List Product) (filteredSales : List Sale) :
    List (String × ℤ × Option ℚ) :=
  let sorted := ordenaDesc (fun e => e.2) (productRevenue products filteredSales)
  let total := totalProductRevenue products filteredSales
  let otherRevenue := ((sorted.drop 5).map fun e => e.2).sum
  ((sorted.take 5).map fun e =>
      (e.1, (⌊e.2⌋ : ℤ), (jsDiv e.2 total).map fun q => q * 100)) ++
    [("Others", (⌊otherRevenue⌋ : ℤ), (jsDiv otherRevenue total).map fun q => q * 100)]

end Reports

/-! ## Dashboard page: period resolver and date-range filter -/

namespace Dashboard

/-- `handlePeriodChange` of the Dashboard page.  `none` means the range
state is left untouched (the `custom` selector); `some (start, end)` is
the pair the handler stores, where a `none` bound is a `null` date. -/
def handlePeriodChange (period : String) (currentDate : ℤ) :
    Option (Option ℤ × Option ℤ) :=
  if period = "custom" then none
  else some (
    if period = "daily" then
      (some (mkDate (getFullYear currentDate) (getMonth currentDate)
          (getDate currentDate) 0 0 0 0),
       some (mkDate (getFullYear currentDate) (getMonth currentDate)
          (getDate currentDate) 23 59 59 0))
    else if period = "weekly" then
      let s0 := setDate currentDate (getDate currentDate - getDay currentDate)
      let s := setHours s0 0 0 0 0
      let e0 := setDate s (getDate s + 6)
      let e := setHours e0 23 59 59 999
      (some s, some e)
    else if period = "monthly" then
      (some (mkDate (getFullYear currentDate) (getMonth currentDate) 1 0 0 0 0),
       some (mkDate (getFullYear currentDate) (getMonth currentDate + 1) 0 23 59 59 0))
    else if period = "yearly" then
      (some (mkDate (getFullYear currentDate) 0 1 0 0 0 0),
       some (mkDate (getFullYear currentDate) 11 31 23 59 59 0))
    else (none, none))

/-- `filterSalesByDateRange` of the Dashboard page: if either bound is
`null` ALL sales are returned; otherwise the sales inside the closed
range are kept. -/
def filterSalesByDateRange (startDate endDate : Option ℤ) (sales : List Sale) :
    List Sale :=
  match startDate, endDate with
  | some s, some e =>
      sales.filter fun sale => decide (s ≤ sale.created_at ∧ sale.created_at ≤ e)
  | _, _ => sales

end Dashboard

/-! ## Sales page: period resolver and date filter -/

namespace SalesPage

/-- `handlePeriodChange` of the Sales page.  The original mutates `now`
in place (`now.setHours(...)`, `now.setDate(...)` return the updated
time value and update `now`); the successive mutated values are modelled
by the sequential `let`s. -/
def handlePeriodChange (period : String) (now : ℤ) :
    Option (Option ℤ × Option ℤ) :=
  if period = "custom" then none
  else some (
    if period = "daily" then
      let n1 := setHours now 0 0 0 0
      let n2 := setHours n1 23 59 59 999
      (some n1, some n2)
    else if period = "weekly" then
      let n1 := setDate now (getDate now - getDay now)
      let n2 := setDate n1 (getDate n1 + 6)
      (some n1, some n2)
    else if period = "monthly" then
      (some (mkDate (getFullYear now) (getMonth now) 1 0 0 0 0),
       some (mkDate (getFullYear now) (getMonth now + 1) 0 0 0 0 0))
    else if period = "yearly" then
      (some (mkDate (getFullYear now) 0 1 0 0 0 0),
       some (mkDate (getFullYear now) 11 31 0 0 0 0))
    else (none, none))

/-- The date clause `isDateMatch` of the Sales page list filter: it
passes whenever either bound is `null`, else tests the closed range. -/
def isDateMatch (startDate endDate : Option ℤ) (saleDate : ℤ) : Bool :=
  match startDate, endDate with
  | some s, some e => decide (s ≤ saleDate ∧ saleDate ≤ e)
  | _, _ => true

end SalesPage

/-! ## Concrete fixtures used by witnesses and counterexamples -/

/-- A sample catalog product. -/
def prodA : Product :=
  { id := "p1", name := "Apple", category := "fruit", selling_price := 1,
    cost_price := 0, quantity := 0, min_stock_level := 0 }

/-- 2023-11-14 22:13:20 UTC, a Tuesday. -/
def hoje0 : ℤ := 1700000000000

/-- One sale of 30 units of `prodA` at `hoje0`. -/
def sale30 : Sale :=
  { id := "s30", created_at := 1700000000000, total := 30, payment_method := "cash",
    sale_items := [{ product_id := "p1", quantity := 30, price_at_sale := 1 }] }

/-- One sale of 1 unit of `prodA` three days before `hoje0`. -/
def saleThreeDaysAgo : Sale :=
  { id := "s3d", created_at := 1699740800000, total := 1, payment_method := "cash",
    sale_items := [{ product_id := "p1", quantity := 1, price_at_sale := 1 }] }

/-- One sale of 1 unit of `prodA` at instant 0. -/
def saleA : Sale :=
  { id := "sA", created_at := 0, total := 1, payment_method := "cash",
    sale_items := [{ product_id := "p1", quantity := 1, price_at_sale := 1 }] }

/-- An empty sale dated at instant 3. -/
def saleAt3 : Sale :=
  { id := "s3", created_at := 3, total := 0, payment_method := "cash", sale_items := [] }

/-! ## Claim C3: the custom rounding function -/

/-- C3: for every non-negative `v`, the custom rounding returns 1 below 1,
and otherwise rounds half up on the fractional part; the listed sample
values hold and the result is always an integer at least 1. -/
theorem claimC3_custom_round (v : ℚ) (h : 0 ≤ v) :
    (v < 1 → Reports.arredondamentoPersonalizado v = 1) ∧
    (1 ≤ v → v - ⌊v⌋ < 1/2 → Reports.arredondamentoPersonalizado v = ⌊v⌋) ∧
    (1 ≤ v → 1/2 ≤ v - ⌊v⌋ → Reports.arredondamentoPersonalizado v = ⌊v⌋ + 1) ∧
    1 ≤ Reports.arredondamentoPersonalizado v ∧
    Reports.arredondamentoPersonalizado (49/100) = 1 ∧
    Reports.arredondamentoPersonalizado (149/100) = 1 ∧
    Reports.arredondamentoPersonalizado (3/2) = 2 ∧
    Reports.arredondamentoPersonalizado 0 = 1 := by
  have hhalf : (0.5 : ℚ) = 1/2 := by norm_num
  refine ⟨?_, ?_, ?_, ?_, ?_, ?_, ?_, ?_⟩
  · intro h1
    unfold Reports.arredondamentoPersonalizado
    rw [if_pos h1]
  · intro h1 h2
    have h3 : ¬ v < 1 := not_lt.mpr h1
    have h4 : ¬ v - ⌊v⌋ ≥ (0.5 : ℚ) := by rw [hhalf]; exact not_le.mpr h2
    unfold Reports.arredondamentoPersonalizado
    rw [if_neg h3, if_neg h4]
  · intro h1 h2
    have h3 : ¬ v < 1 := not_lt.mpr h1
    have h4 : v - ⌊v⌋ ≥ (0.5 : ℚ) := by rw [hhalf]; exact h2
    unfold Reports.arredondamentoPersonalizado
    rw [if_neg h3, if_pos h4]
  · unfold Reports.arredondamentoPersonalizado
    by_cases h1 : v < 1
    · rw [if_pos h1]
    · have h2 : (1 : ℤ) ≤ ⌊v⌋ := Int.le_floor.mpr (by exact_mod_cast not_lt.mp h1)
      rw [if_neg h1]
      split_ifs <;> omega
  · unfold Reports.arredondamentoPersonalizado
    norm_num
  · unfold Reports.arredondamentoPersonalizado
    norm_num
  · unfold Reports.arredondamentoPersonalizado
    norm_num
  · unfold Reports.arredondamentoPersonalizado
    norm_num

/-- Witness for C3 at `v = 1/2`. -/
theorem claimC3_custom_round_witness :
    (0 : ℚ) ≤ 1/2 ∧ Reports.arredondamentoPersonalizado (1/2) = 1 :=
  ⟨by norm_num, (claimC3_custom_round (1/2) (by norm_num)).1 (by norm_num)⟩

/-! ## Claim C4: the suggested restock quantity -/

/-- C4: the suggested quantity is the custom rounding of
`ceil(monthlyTotal * 1.2)`, and a monthly total of 30 yields 36. -/
theorem claimC4_suggested (produto : Product) (vendas : List Sale) (hoje : ℤ) :
    (Reports.calcularConsumoMedio produto vendas hoje).quantidade_sugerida =
      Reports.arredondamentoPersonalizado
        ((⌈(Reports.somaQuantidades (Reports.vendasMesDe produto vendas hoje) : ℚ) * 1.2⌉ : ℤ) : ℚ) ∧
    (Reports.somaQuantidades (Reports.vendasMesDe produto vendas hoje) = 30 →
      (Reports.calcularConsumoMedio produto vendas hoje).quantidade_sugerida = 36) := by
  refine ⟨rfl, ?_⟩
  intro h30
  have h1 : (Reports.calcularConsumoMedio produto vendas hoje).quantidade_sugerida =
      Reports.arredondamentoPersonalizado
        ((⌈(Reports.somaQuantidades (Reports.vendasMesDe produto vendas hoje) : ℚ) * 1.2⌉ : ℤ) : ℚ) :=
    rfl
  rw [h1, h30]
  norm_num [Reports.arredondamentoPersonalizado]

/-! ## Claim C5: products with no matching sale items -/

/-- C5: a product with no matching sale items gets rates, monthly total
and suggested quantity all equal to 1 and a stable trend. -/
theorem claimC5_no_sales (produto : Product) (vendas : List Sale) (hoje : ℤ)
    (h : Reports.vendasProdutoDe produto vendas = []) :
    Reports.calcularConsumoMedio produto vendas hoje =
      { produto := produto.name, consumo_diario := 1, consumo_semanal := 1,
        consumo_mensal := 1, quantidade_sugerida := 1,
        tendencia := Tendencia.estavel } := by
  have hm : Reports.vendasMesDe produto vendas hoje = [] := by
    unfold Reports.vendasMesDe
    rw [h]
    rfl
  have hw : Reports.vendasSemanaDe produto vendas hoje = [] := by
    unfold Reports.vendasSemanaDe
    rw [h]
    rfl
  have hr : Reports.consumoRecenteDe produto vendas hoje = 0 := by
    unfold Reports.consumoRecenteDe
    rw [hw]
    rfl
  have ha : Reports.consumoAntigoDe produto vendas hoje = 0 := by
    unfold Reports.consumoAntigoDe
    rw [hm]
    rfl
  simp only [Reports.calcularConsumoMedio, hm, hw, hr, ha, Reports.somaQuantidades,
    List.foldl_nil]
  norm_num [Reports.arredondamentoPersonalizado]

/-- Witness for C5: a product with an empty sales list. -/
theorem claimC5_no_sales_witness :
    Reports.calcularConsumoMedio prodA [] 0 =
      { produto := prodA.name, consumo_diario := 1, consumo_semanal := 1,
        consumo_mensal := 1, quantidade_sugerida := 1,
        tendencia := Tendencia.estavel } :=
  claimC5_no_sales prodA [] 0 rfl

/-- Witness for C4: a single 30-unit sale dated `hoje0` gives monthly
total 30 and suggested quantity 36. -/
theorem claimC4_suggested_witness :
    Reports.somaQuantidades (Reports.vendasMesDe prodA [sale30] hoje0) = 30 ∧
    (Reports.calcularConsumoMedio prodA [sale30] hoje0).quantidade_sugerida = 36 :=
  ⟨by decide, (claimC4_suggested prodA [sale30] hoje0).2 (by decide)⟩

/-! ## Claim C2: the trend classification -/

/-- C2: the trend is rising exactly when `recent > older * 1.1`, falling
exactly when `recent < older * 0.9`, stable otherwise; both exact
boundary values give stable; `older = 0 < recent` gives rising and
`recent = older = 0` gives stable. -/
theorem claimC2_trend (produto : Product) (vendas : List Sale) (hoje : ℤ) :
    ((Reports.calcularConsumoMedio produto vendas hoje).tendencia = Tendencia.subindo ↔
      (Reports.consumoAntigoDe produto vendas hoje : ℚ) * 1.1 <
        (Reports.consumoRecenteDe produto vendas hoje : ℚ)) ∧
    ((Reports.calcularConsumoMedio produto vendas hoje).tendencia = Tendencia.descendo ↔
      (Reports.consumoRecenteDe produto vendas hoje : ℚ) <
        (Reports.consumoAntigoDe produto vendas hoje : ℚ) * 0.9) ∧
    ((Reports.calcularConsumoMedio produto vendas hoje).tendencia = Tendencia.estavel ↔
      (¬ (Reports.consumoAntigoDe produto vendas hoje : ℚ) * 1.1 <
          (Reports.consumoRecenteDe produto vendas hoje : ℚ) ∧
        ¬ (Reports.consumoRecenteDe produto vendas hoje : ℚ) <
          (Reports.consumoAntigoDe produto vendas hoje : ℚ) * 0.9)) ∧
    ((Reports.consumoRecenteDe produto vendas hoje : ℚ) =
        (Reports.consumoAntigoDe produto vendas hoje : ℚ) * 1.1 →
      (Reports.calcularConsumoMedio produto vendas hoje).tendencia = Tendencia.estavel) ∧
    ((Reports.consumoRecenteDe produto vendas hoje : ℚ) =
        (Reports.consumoAntigoDe produto vendas hoje : ℚ) * 0.9 →
      (Reports.calcularConsumoMedio produto vendas hoje).tendencia = Tendencia.estavel) ∧
    (Reports.consumoAntigoDe produto vendas hoje = 0 →
      0 < Reports.consumoRecenteDe produto vendas hoje →
      (Reports.calcularConsumoMedio produto vendas hoje).tendencia = Tendencia.subindo) ∧
    (Reports.consumoAntigoDe produto vendas hoje = 0 →
      Reports.consumoRecenteDe produto vendas hoje = 0 →
      (Reports.calcularConsumoMedio produto vendas hoje).tendencia = Tendencia.estavel) := by
  have htend : (Reports.calcularConsumoMedio produto vendas hoje).tendencia =
      (if (Reports.consumoRecenteDe produto vendas hoje : ℚ) >
            (Reports.consumoAntigoDe produto vendas hoje : ℚ) * 1.1 then Tendencia.subindo
        else if (Reports.consumoRecenteDe produto vendas hoje : ℚ) <
            (Reports.consumoAntigoDe produto vendas hoje : ℚ) * 0.9 then Tendencia.descendo
        else Tendencia.estavel) := rfl
  set r := Reports.consumoRecenteDe produto vendas hoje with hrdef
  set a := Reports.consumoAntigoDe produto vendas hoje with hadef
  have ha0 : (0 : ℚ) ≤ (a : ℚ) := Nat.cast_nonneg a
  rw [htend]
  by_cases h1 : (a : ℚ) * 1.1 < (r : ℚ)
  · rw [if_pos h1]
    have h2 : ¬ (r : ℚ) < (a : ℚ) * 0.9 := by
      intro hlt
      nlinarith
    refine ⟨by simp [h1], by simp [h2], by simp [h1], ?_, ?_, fun _ _ => rfl, ?_⟩
    · intro he
      exact absurd (he ▸ h1) (lt_irrefl _)
    · intro he
      exact absurd h1 (by rw [he]; intro hc; nlinarith)
    · intro ha' hr'
      rw [ha'] at h1
      rw [hr'] at h1
      norm_num at h1
  · rw [if_neg h1]
    by_cases h2 : (r : ℚ) < (a : ℚ) * 0.9
    · rw [if_pos h2]
      refine ⟨by simp [h1], by simp [h2], by simp [h2], ?_, ?_, ?_, ?_⟩
      · intro he
        exact absurd h2 (by rw [he]; intro hc; nlinarith)
      · intro he
        exact absurd h2 (he ▸ lt_irrefl _)
      · intro ha' hr'
        rw [ha'] at h2
        have : (0 : ℚ) < (r : ℚ) := by exact_mod_cast hr'
        norm_num at h2
        nlinarith
      · intro ha' hr'
        rw [ha'] at h2
        rw [hr'] at h2
        norm_num at h2
    · rw [if_neg h2]
      refine ⟨by simp [h1], by simp [h2], by simp [h1, h2], fun _ => rfl, fun _ => rfl,
        ?_, fun _ _ => rfl⟩
      intro ha' hr'
      exfalso
      apply h1
      rw [ha']
      push_cast
      have hrq : (0 : ℚ) < (r : ℚ) := by exact_mod_cast hr'
      linarith

/-- Witness for C2: with no sales both sums are 0 and the trend is
stable. -/
theorem claimC2_trend_witness :
    (Reports.calcularConsumoMedio prodA [] 0).tendencia = Tendencia.estavel :=
  (claimC2_trend prodA [] 0).2.2.2.2.2.2 rfl rfl

/-! ## Claim C1: the analysis is coupled to the display filter -/

/-- C1 (amended): the consumption analysis is computed from the
display-filtered sales.  With the `all` filter the filter passes every
sale, so only then does the analysis use all provided sales. -/
theorem claimC1_filter_coupling (now : ℤ) (products : List Product) (sales : List Sale) :
    Reports.filterSalesByTime "all" now sales = sales ∧
    Reports.analiseDe "all" now products sales =
      ordenaDesc (fun a => a.quantidade_sugerida)
        (products.map fun produto => Reports.calcularConsumoMedio produto sales now) := by
  have h1 : Reports.filterSalesByTime "all" now sales = sales := by
    unfold Reports.filterSalesByTime
    simp
  exact ⟨h1, by simp only [Reports.analiseDe, h1]⟩

/-- Counterexample to C1 as stated: a sale three days old is kept by the
`all` display filter but dropped by the `daily` one, and the product's
analysis record changes (its suggested quantity drops from 2 to 1 and its
trend from rising to stable). -/
theorem claimC1_filter_coupling_cex :
    Reports.calcularConsumoMedio prodA
        (Reports.filterSalesByTime "daily" hoje0 [saleThreeDaysAgo]) hoje0 ≠
      Reports.calcularConsumoMedio prodA [saleThreeDaysAgo] hoje0 := by
  have hfil : Reports.filterSalesByTime "daily" hoje0 [saleThreeDaysAgo] = [] := by decide
  have h1 : Reports.somaQuantidades (Reports.vendasMesDe prodA [] hoje0) = 0 := by decide
  have h2 : Reports.somaQuantidades (Reports.vendasMesDe prodA [saleThreeDaysAgo] hoje0) = 1 := by
    decide
  have e1 : (Reports.calcularConsumoMedio prodA [] hoje0).quantidade_sugerida =
      Reports.arredondamentoPersonalizado
        ((⌈(Reports.somaQuantidades (Reports.vendasMesDe prodA [] hoje0) : ℚ) * 1.2⌉ : ℤ) : ℚ) :=
    (claimC4_suggested prodA [] hoje0).1
  have e2 : (Reports.calcularConsumoMedio prodA [saleThreeDaysAgo] hoje0).quantidade_sugerida =
      Reports.arredondamentoPersonalizado
        ((⌈(Reports.somaQuantidades (Reports.vendasMesDe prodA [saleThreeDaysAgo] hoje0) : ℚ)
            * 1.2⌉ : ℤ) : ℚ) :=
    (claimC4_suggested prodA [saleThreeDaysAgo] hoje0).1
  rw [h1] at e1
  rw [h2] at e2
  have v1 : (Reports.calcularConsumoMedio prodA [] hoje0).quantidade_sugerida = 1 := by
    rw [e1]
    norm_num [Reports.arredondamentoPersonalizado]
  have v2 : (Reports.calcularConsumoMedio prodA [saleThreeDaysAgo] hoje0).quantidade_sugerida
      = 2 := by
    rw [e2]
    have hc : (⌈((1 : ℕ) : ℚ) * 1.2⌉ : ℤ) = 2 := by
      push_cast
      rw [Int.ceil_eq_iff]
      constructor
      · norm_num
      · norm_num
    rw [hc]
    norm_num [Reports.arredondamentoPersonalizado]
  rw [hfil]
  intro hcontra
  rw [hcontra] at v1
  rw [v2] at v1
  exact absurd v1 (by norm_num)

/-! ## Claim C6: ordering and stability of the analysis list -/

/-- C6: the analysis list is non-increasing in `quantidade_sugerida`, and
the sort is stable: for every key value, the rows having it appear in
their original catalog encounter order. -/
theorem claimC6_sorted_stable (timeFilter : String) (now : ℤ)
    (products : List Product) (sales : List Sale) :
    (Reports.analiseDe timeFilter now products sales).Pairwise
      (fun a b : ConsumoAnalise => b.quantidade_sugerida ≤ a.quantidade_sugerida) ∧
    ∀ k : ℤ,
      (Reports.analiseDe timeFilter now products sales).filter
          (fun a : ConsumoAnalise => decide (a.quantidade_sugerida = k)) =
        (products.map fun produto =>
            Reports.calcularConsumoMedio produto
              (Reports.filterSalesByTime timeFilter now sales) now).filter
          (fun a : ConsumoAnalise => decide (a.quantidade_sugerida = k)) :=
  ⟨pairwise_ordenaDesc (fun a : ConsumoAnalise => a.quantidade_sugerida) _,
    fun k => filter_ordenaDesc (fun a : ConsumoAnalise => a.quantidade_sugerida) _ k⟩

/-! ## Claim C7: null date-range bounds disable the whole filter -/

/-- C7 (amended): in both pages, a `null` bound on either side disables
the date filter entirely (every sale passes, even one outside the
non-null bound); only when both bounds are non-null are exactly the
sales with `start ≤ date ≤ end` kept. -/
theorem claimC7_null_bounds (startDate endDate : Option ℤ) (sales : List Sale) :
    ((startDate = none ∨ endDate = none) →
      Dashboard.filterSalesByDateRange startDate endDate sales = sales) ∧
    (∀ s e, startDate = some s → endDate = some e →
      Dashboard.filterSalesByDateRange startDate endDate sales =
        sales.filter fun sale => decide (s ≤ sale.created_at ∧ sale.created_at ≤ e)) ∧
    ((startDate = none ∨ endDate = none) →
      ∀ d : ℤ, SalesPage.isDateMatch startDate endDate d = true) ∧
    (∀ s e d, startDate = some s → endDate = some e →
      (SalesPage.isDateMatch startDate endDate d = true ↔ (s ≤ d ∧ d ≤ e))) := by
  refine ⟨?_, ?_, ?_, ?_⟩
  · intro h
    rcases h with h | h
    · subst h
      rfl
    · subst h
      cases startDate <;> rfl
  · intro s e hs he
    subst hs
    subst he
    rfl
  · intro h d
    rcases h with h | h
    · subst h
      rfl
    · subst h
      cases startDate <;> rfl
  · intro s e d hs he
    subst hs
    subst he
    simp [SalesPage.isDateMatch]

/-- Witness for C7: both bounds `null` returns the list unchanged, and
with both bounds set the range test is exact. -/
theorem claimC7_null_bounds_witness :
    Dashboard.filterSalesByDateRange none none [saleAt3] = [saleAt3] ∧
    (SalesPage.isDateMatch (some 1) (some 4) 3 = true ↔ ((1 : ℤ) ≤ 3 ∧ (3 : ℤ) ≤ 4)) :=
  ⟨(claimC7_null_bounds none none [saleAt3]).1 (Or.inl rfl),
    (claimC7_null_bounds (some 1) (some 4) []).2.2.2 1 4 3 rfl rfl⟩

/-- Counterexample to C7 as stated: with `start = 5` and `end = null`,
the claim keeps only sales dated `≥ 5`, but the code returns every sale —
including one dated 3. -/
theorem claimC7_null_bounds_cex :
    Dashboard.filterSalesByDateRange (some 5) none [saleAt3] ≠
      [saleAt3].filter fun sale => decide ((5 : ℤ) ≤ sale.created_at) := by decide

/-! ## Claim C8: the weekly period resolver -/

/-- C8 (amended): for every invocation instant, the Dashboard weekly
resolver yields the most recent Sunday at 00:00:00.000 (a Sunday, time
of day zero, at most 6 days back) through that Sunday + 6 days at
23:59:59.999; the Sales resolver instead yields the instant `getDay`
days earlier — the most recent Sunday at the invocation's own time of
day, not zeroed — through 6 days after it. -/
theorem claimC8_weekly (t : ℤ) :
    ∃ s e s2 e2,
      Dashboard.handlePeriodChange "weekly" t = some (some s, some e) ∧
      SalesPage.handlePeriodChange "weekly" t = some (some s2, some e2) ∧
      timeOfDay s = 0 ∧
      getDay s = 0 ∧
      s ≤ t ∧
      t - s < 7 * 86400000 ∧
      e = s + 6 * 86400000 + 86399999 ∧
      s2 = t - getDay t * 86400000 ∧
      e2 = s2 + 6 * 86400000 ∧
      timeOfDay s2 = timeOfDay t := by
  have h1 : setDate t (getDate t - getDay t) = t - getDay t * 86400000 := by
    have h := setDate_getDate_add t (-(getDay t))
    have h2 : getDate t + -(getDay t) = getDate t - getDay t := by ring
    rw [h2] at h
    rw [h]
    ring
  have hs : setHours (setDate t (getDate t - getDay t)) 0 0 0 0
      = (dayOf t - getDay t) * 86400000 := by
    rw [h1]
    unfold setHours mkTime dayOf getDay
    omega
  have he0 : setDate ((dayOf t - getDay t) * 86400000)
      (getDate ((dayOf t - getDay t) * 86400000) + 6)
      = (dayOf t - getDay t) * 86400000 + 6 * 86400000 :=
    setDate_getDate_add _ 6
  have he : setHours ((dayOf t - getDay t) * 86400000 + 6 * 86400000) 23 59 59 999
      = (dayOf t - getDay t) * 86400000 + 6 * 86400000 + 86399999 := by
    unfold setHours mkTime dayOf getDay
    omega
  have hs2e : setDate (setDate t (getDate t - getDay t))
      (getDate (setDate t (getDate t - getDay t)) + 6)
      = setDate t (getDate t - getDay t) + 6 * 86400000 :=
    setDate_getDate_add _ 6
  refine ⟨_, _, _, _, rfl, rfl, ?_, ?_, ?_, ?_, ?_, ?_, ?_, ?_⟩
  · rw [hs]
    unfold timeOfDay getDay dayOf
    omega
  · rw [hs]
    unfold getDay dayOf
    omega
  · rw [hs]
    unfold getDay dayOf
    omega
  · rw [hs]
    unfold getDay dayOf
    omega
  · rw [hs, he0, he]
  · exact h1
  · rw [hs2e]
  · rw [h1]
    unfold timeOfDay getDay dayOf
    omega

/-- Counterexample to C8 as stated: invoked on Tuesday 2023-11-14
22:13:20, the Sales weekly resolver starts the range at the preceding
Sunday 22:13:20, not 00:00:00 — its time of day is not zeroed. -/
theorem claimC8_weekly_cex :
    SalesPage.handlePeriodChange "weekly" hoje0
      = some (some 1699827200000, some 1700345600000) ∧
    timeOfDay 1699827200000 ≠ 0 := by decide

/-! ## Claim C10: the two period resolvers are not equivalent -/

/-- The day-of-month update keeps the time of day. -/
theorem timeOfDay_setDate (x d : ℤ) : setDate x d % 86400000 = x % 86400000 := by
  unfold setDate timeOfDay
  omega

/-- C10 (amended): the Dashboard and Sales period resolvers agree only on
the `all` selector; for each of `daily`, `weekly`, `monthly` and
`yearly` they produce different ranges at every invocation instant
(the end bounds never agree, and for `weekly` whichever of the start or
end bounds shares the instant's time of day disagrees with the other
page's zeroed/end-of-day bound). -/
theorem claimC10_resolvers :
    (∀ t : ℤ, Dashboard.handlePeriodChange "all" t = SalesPage.handlePeriodChange "all" t) ∧
    (∀ t : ℤ, Dashboard.handlePeriodChange "daily" t ≠ SalesPage.handlePeriodChange "daily" t) ∧
    (∀ t : ℤ, Dashboard.handlePeriodChange "weekly" t ≠ SalesPage.handlePeriodChange "weekly" t) ∧
    (∀ t : ℤ, Dashboard.handlePeriodChange "monthly" t ≠ SalesPage.handlePeriodChange "monthly" t) ∧
    (∀ t : ℤ, Dashboard.handlePeriodChange "yearly" t ≠ SalesPage.handlePeriodChange "yearly" t) := by
  refine ⟨fun t => rfl, ?_, ?_, ?_, ?_⟩
  · intro t h
    have hd : Dashboard.handlePeriodChange "daily" t
        = some (some (mkDate (getFullYear t) (getMonth t) (getDate t) 0 0 0 0),
          some (mkDate (getFullYear t) (getMonth t) (getDate t) 23 59 59 0)) := rfl
    have hp : SalesPage.handlePeriodChange "daily" t
        = some (some (setHours t 0 0 0 0),
          some (setHours (setHours t 0 0 0 0) 23 59 59 999)) := rfl
    rw [hd, hp] at h
    simp only [Option.some.injEq, Prod.mk.injEq] at h
    have e1 : mkDate (getFullYear t) (getMonth t) (getDate t) 23 59 59 0 % 1000 = 0 := by
      unfold mkDate mkTime
      omega
    have e2 : setHours (setHours t 0 0 0 0) 23 59 59 999 % 1000 = 999 := by
      unfold setHours mkTime dayOf
      omega
    rw [h.2] at e1
    omega
  · intro t h
    have hd : Dashboard.handlePeriodChange "weekly" t
        = some (some (setHours (setDate t (getDate t - getDay t)) 0 0 0 0),
          some (setHours
            (setDate (setHours (setDate t (getDate t - getDay t)) 0 0 0 0)
              (getDate (setHours (setDate t (getDate t - getDay t)) 0 0 0 0) + 6))
            23 59 59 999)) := rfl
    have hp : SalesPage.handlePeriodChange "weekly" t
        = some (some (setDate t (getDate t - getDay t)),
          some (setDate (setDate t (getDate t - getDay t))
            (getDate (setDate t (getDate t - getDay t)) + 6))) := rfl
    rw [hd, hp] at h
    simp only [Option.some.injEq, Prod.mk.injEq] at h
    have a1 : setHours (setDate t (getDate t - getDay t)) 0 0 0 0 % 86400000 = 0 := by
      unfold setHours mkTime dayOf
      omega
    have a2 : setDate t (getDate t - getDay t) % 86400000 = t % 86400000 :=
      timeOfDay_setDate t _
    have a3 : setHours
        (setDate (setHours (setDate t (getDate t - getDay t)) 0 0 0 0)
          (getDate (setHours (setDate t (getDate t - getDay t)) 0 0 0 0) + 6))
        23 59 59 999 % 86400000 = 86399999 := by
      unfold setHours mkTime dayOf
      omega
    have a4 : setDate (setDate t (getDate t - getDay t))
        (getDate (setDate t (getDate t - getDay t)) + 6) % 86400000 = t % 86400000 := by
      rw [timeOfDay_setDate, timeOfDay_setDate]
    have b1 := congrArg (fun z => z % 86400000) h.1
    have b2 := congrArg (fun z => z % 86400000) h.2
    simp only at b1 b2
    rw [a1, a2] at b1
    rw [a3, a4] at b2
    omega
  · intro t h
    have hd : Dashboard.handlePeriodChange "monthly" t
        = some (some (mkDate (getFullYear t) (getMonth t) 1 0 0 0 0),
          some (mkDate (getFullYear t) (getMonth t + 1) 0 23 59 59 0)) := rfl
    have hp : SalesPage.handlePeriodChange "monthly" t
        = some (some (mkDate (getFullYear t) (getMonth t) 1 0 0 0 0),
          some (mkDate (getFullYear t) (getMonth t + 1) 0 0 0 0 0)) := rfl
    rw [hd, hp] at h
    simp only [Option.some.injEq, Prod.mk.injEq] at h
    have e := h.2
    unfold mkDate mkTime at e
    omega
  · intro t h
    have hd : Dashboard.handlePeriodChange "yearly" t
        = some (some (mkDate (getFullYear t) 0 1 0 0 0 0),
          some (mkDate (getFullYear t) 11 31 23 59 59 0)) := rfl
    have hp : SalesPage.handlePeriodChange "yearly" t
        = some (some (mkDate (getFullYear t) 0 1 0 0 0 0),
          some (mkDate (getFullYear t) 11 31 0 0 0 0)) := rfl
    rw [hd, hp] at h
    simp only [Option.some.injEq, Prod.mk.injEq] at h
    have e := h.2
    unfold mkDate mkTime at e
    omega

/-- Witness for C10: agreement on `all`, disagreement on `daily` at a
concrete instant. -/
theorem claimC10_resolvers_witness :
    Dashboard.handlePeriodChange "all" 0 = SalesPage.handlePeriodChange "all" 0 ∧
    ¬ Dashboard.handlePeriodChange "daily" 1700000000000
        = SalesPage.handlePeriodChange "daily" 1700000000000 :=
  ⟨claimC10_resolvers.1 0, claimC10_resolvers.2.1 1700000000000⟩

/-- Counterexample to C10 as stated: at 2023-11-14 22:13:20 the two
`daily` resolvers disagree (the Dashboard end has millisecond 0, the
Sales end has millisecond 999). -/
theorem claimC10_resolvers_cex :
    Dashboard.handlePeriodChange "daily" hoje0 ≠ SalesPage.handlePeriodChange "daily" hoje0 := by
  decide

/-! ## Claim C9: percentage sums and the unguarded zero total -/

theorem jsDiv_percent_sum (l : List (String × ℚ)) (T : ℚ) (hT : T ≠ 0) :
    (l.map fun e => ((Reports.jsDiv e.2 T).map fun q => q * 100).getD 0).sum
      = (l.map fun e => e.2).sum / T * 100 := by
  induction l with
  | nil => simp
  | cons x l ih =>
    have hx : Reports.jsDiv x.2 T = some (x.2 / T) := by
      unfold Reports.jsDiv
      rw [if_neg hT]
    rw [List.map_cons, List.sum_cons, ih, List.map_cons, List.sum_cons, hx]
    simp only [Option.map_some', Option.getD_some]
    ring

/-- C9 (amended): whenever the revenue grand total is positive, the
category percentages and the product-contribution percentages (top 5
plus Others) each sum to exactly 100; but when a grand total is zero the
computed percentages are the non-finite result of dividing by zero
(`NaN`), not 0 — the division is not special-cased. -/
theorem claimC9_percentages (products : List Product) (filteredSales : List Sale) :
    (filteredSales ≠ [] → 0 < Reports.totalCategorySales products filteredSales →
      ((Reports.categoryDistribution products filteredSales).map
          (fun e => e.2.getD 0)).sum = 100) ∧
    (filteredSales ≠ [] → 0 < Reports.totalProductRevenue products filteredSales →
      ((Reports.revenueContribution products filteredSales).map
          (fun e => e.2.2.getD 0)).sum = 100) ∧
    (Reports.totalCategorySales products filteredSales = 0 →
      ∀ e ∈ Reports.categoryDistribution products filteredSales, e.2 = none) ∧
    (Reports.totalProductRevenue products filteredSales = 0 →
      ∀ e ∈ Reports.revenueContribution products filteredSales, e.2.2 = none) := by
  refine ⟨?_, ?_, ?_, ?_⟩
  · intro _ hpos
    have hT : Reports.totalCategorySales products filteredSales ≠ 0 := ne_of_gt hpos
    unfold Reports.categoryDistribution
    rw [List.map_map]
    have hcomp : ((fun e : String × Option ℚ => e.2.getD 0) ∘ fun e : String × ℚ =>
        (e.1, (Reports.jsDiv e.2 (Reports.totalCategorySales products filteredSales)).map
          fun q => q * 100))
        = fun e : String × ℚ =>
            ((Reports.jsDiv e.2 (Reports.totalCategorySales products filteredSales)).map
              fun q => q * 100).getD 0 := rfl
    rw [hcomp, jsDiv_percent_sum _ _ hT]
    have hfold : ((Reports.categoryData products filteredSales).map
        (fun e : String × ℚ => e.2)).sum = Reports.totalCategorySales products filteredSales :=
      rfl
    rw [hfold, div_self hT]
    norm_num
  · intro _ hpos
    have hT : Reports.totalProductRevenue products filteredSales ≠ 0 := ne_of_gt hpos
    unfold Reports.revenueContribution
    rw [List.map_append, List.sum_append, List.map_map]
    have hcomp : ((fun e : String × ℤ × Option ℚ => e.2.2.getD 0) ∘ fun e : String × ℚ =>
        (e.1, (⌊e.2⌋ : ℤ),
          (Reports.jsDiv e.2 (Reports.totalProductRevenue products filteredSales)).map
            fun q => q * 100))
        = fun e : String × ℚ =>
            ((Reports.jsDiv e.2 (Reports.totalProductRevenue products filteredSales)).map
              fun q => q * 100).getD 0 := rfl
    rw [hcomp, jsDiv_percent_sum _ _ hT]
    simp only [List.map_cons, List.map_nil, List.sum_cons, List.sum_nil,
      Reports.jsDiv, if_neg hT, Option.map_some', Option.getD_some]
    have hperm : ((ordenaDesc (fun e : String × ℚ => e.2)
          (Reports.productRevenue products filteredSales)).map
            (fun e : String × ℚ => e.2)).sum
        = ((Reports.productRevenue products filteredSales).map
            (fun e : String × ℚ => e.2)).sum :=
      map_ordenaDesc_sum _ _ _
    have hfold : ((Reports.productRevenue products filteredSales).map
        (fun e : String × ℚ => e.2)).sum
        = Reports.totalProductRevenue products filteredSales := rfl
    have hsum : (((ordenaDesc (fun e : String × ℚ => e.2)
          (Reports.productRevenue products filteredSales)).take 5).map
            (fun e : String × ℚ => e.2)).sum +
        (((ordenaDesc (fun e : String × ℚ => e.2)
          (Reports.productRevenue products filteredSales)).drop 5).map
            (fun e : String × ℚ => e.2)).sum
        = Reports.totalProductRevenue products filteredSales := by
      rw [← List.sum_append, ← List.map_append, List.take_append_drop]
      exact hperm.trans hfold
    have hexp : ∀ a b : ℚ,
        a / Reports.totalProductRevenue products filteredSales * 100 +
          (b / Reports.totalProductRevenue products filteredSales * 100 + 0)
        = (a + b) / Reports.totalProductRevenue products filteredSales * 100 := by
      intro a b
      ring
    rw [hexp, hsum, div_self hT]
    norm_num
  · intro h0 e he
    unfold Reports.categoryDistribution at he
    obtain ⟨x, hx, rfl⟩ := List.mem_map.1 he
    simp [Reports.jsDiv, h0]
  · intro h0 e he
    unfold Reports.revenueContribution at he
    rcases List.mem_append.1 he with hmem | hmem
    · obtain ⟨x, hx, rfl⟩ := List.mem_map.1 hmem
      simp [Reports.jsDiv, h0]
    · rw [List.mem_singleton] at hmem
      subst hmem
      simp [Reports.jsDiv, h0]

/-- Witness for C9: one product sold once at price 1 gives percentage
lists summing to 100. -/
theorem claimC9_percentages_witness :
    ((Reports.categoryDistribution [prodA] [saleA]).map (fun e => e.2.getD 0)).sum = 100 ∧
    ((Reports.revenueContribution [prodA] [saleA]).map (fun e => e.2.2.getD 0)).sum = 100 := by
  have hcd : Reports.categoryData [prodA] [saleA] = [("fruit", 1)] := by
    simp [Reports.categoryData, Reports.upsert, prodA, saleA]
  have hpr : Reports.productRevenue [prodA] [saleA] = [("Apple", 1)] := by
    simp [Reports.productRevenue, Reports.upsert, prodA, saleA]
  have hcat : Reports.totalCategorySales [prodA] [saleA] = 1 := by
    rw [Reports.totalCategorySales, hcd]
    simp
  have hprod : Reports.totalProductRevenue [prodA] [saleA] = 1 := by
    rw [Reports.totalProductRevenue, hpr]
    simp
  exact ⟨(claimC9_percentages [prodA] [saleA]).1 (by simp) (by rw [hcat]; norm_num),
    (claimC9_percentages [prodA] [saleA]).2.1 (by simp) (by rw [hprod]; norm_num)⟩

/-- Counterexample to C9 as stated: with no sales at all the grand total
is zero, yet the contribution list still carries its "Others" entry,
whose percentage is the undefined `0/0` (`NaN`), not 0. -/
theorem claimC9_percentages_cex :
    Reports.totalProductRevenue [] [] = 0 ∧
    ¬ ∀ e ∈ Reports.revenueContribution [] [], e.2.2 = some 0 := by
  have hrc : Reports.revenueContribution [] [] = [("Others", 0, none)] := by
    simp [Reports.revenueContribution, Reports.productRevenue, Reports.totalProductRevenue,
      Reports.jsDiv, ordenaDesc]
  refine ⟨rfl, ?_⟩
  intro hall
  rw [hrc] at hall
  have h := hall ("Others", 0, none) (by simp)
  simp at h
